import Mathlib

/-!
Shallow embedding of the NovelAi-hub story-sharing backend
(story controller, Story schema, user registration, AI generation proxy).

Conventions of the embedding:
* Mongo ObjectIds are modelled as `Nat`.
* A collection is an association list `List (Nat × doc)` kept in insertion
  order; `findOne`/`findById` is the first match in that order, as Mongo's
  natural-order scan behaves on a simple collection.
* JavaScript string truthiness on a `String` field is `≠ ""`.
* `content.trim().split(/\s+/).length` is `jsWordCount` below.
* External I/O (Cloudinary upload, DeepSeek fetch) is passed in as
  oracle arguments; the list of asset uploads performed during a call is
  returned explicitly so that side effects are observable.
* String lengths model JS `.length`; on the data considered the
  code-unit/codepoint distinction does not arise.
-/

namespace NovelHub

/-- Number of maximal runs of non-whitespace characters; the flag records
whether we are inside a run. -/
def countRuns : List Char → Bool → Nat
  | [], _ => 0
  | c :: rest, inWord =>
    if c.isWhitespace then countRuns rest false
    else (if inWord then 0 else 1) + countRuns rest true

/-- Models JS `content.trim().split(/\s+/).length`: `1` when the trimmed
string is empty (JS `"".split` gives `[""]`), otherwise the number of
whitespace-delimited tokens. -/
def jsWordCount (s : String) : Nat :=
  let n := countRuns s.data false
  if n = 0 then 1 else n

/-- Models JS `trim()`: whitespace removed from both ends; structural so
that concrete instances reduce. -/
def jsTrim (s : String) : String :=
  ⟨((s.data.dropWhile Char.isWhitespace).reverse.dropWhile
      Char.isWhitespace).reverse⟩

/-- The genre whitelist hard-coded in `createStory` (storyController.js). -/
def validGenres : List String :=
  ["fantasy", "romance", "mystery", "science-fiction", "horror"]

/-- The genre enumeration of the Story mongoose schema (models/Story.js). -/
def modelGenres : List String :=
  ["fantasy", "romance", "mystery", "science-fiction", "horror",
   "thriller", "historical-fiction", "adventure", "young-adult",
   "literary-fiction", "dystopian", "paranormal", "contemporary",
   "crime", "drama", "comedy", "action", "slice-of-life",
   "supernatural", "psychological"]

/-- A Story document (models/Story.js); comments are omitted as no claim
touches them. `createdAt` comes from the `timestamps: true` option. -/
structure Story where
  title : String
  content : String
  genre : String
  author : Nat
  isAIGenerated : Bool
  likes : List Nat
  wordCount : Nat
  status : String
  image : Option String
  createdAt : Nat
deriving DecidableEq, Repr

/-- The slice of a User document the story handlers touch: its `stories`
array. -/
structure UserDoc where
  stories : List Nat
deriving DecidableEq, Repr

/-- The database state seen by the story handlers. -/
structure DB where
  stories : List (Nat × Story)
  users : List (Nat × UserDoc)
deriving DecidableEq, Repr

/-- A handler outcome: success payload, or an HTTP status plus failure
message (the `{success:false, message}` envelope). -/
inductive HResp (α : Type) where
  | ok (a : α)
  | err (status : Nat) (msg : String)
deriving DecidableEq, Repr

/-- `Story.findById`. -/
def findStory (db : DB) (sid : Nat) : Option Story :=
  (db.stories.find? (fun p => p.1 == sid)).map (fun p => p.2)

/-- Request body of `POST /api/stories` (plus the optional multipart file). -/
structure CreateReq where
  title : String
  content : String
  genre : String
  isAIGenerated : Bool
  file : Option String
deriving DecidableEq, Repr

/-- `createStory` (storyController.js).  The Cloudinary call is the oracle
`upload`; the third component of the result lists the asset uploads the call
performed.  The image is uploaded, as in the source, before any field
validation runs.  The final `trim`-required check models the mongoose
validation that `Story.create` runs after the controller's own checks
(the schema declares `title` with `trim: true` and `required`). -/
def createStory (upload : String → String) (uid : Nat) (req : CreateReq)
    (freshId : Nat) (now : Nat) (db : DB) : HResp Story × DB × List String :=
  let uploads := match req.file with
    | some f => [upload f]
    | none => []
  let imageUrl : Option String := match req.file with
    | some f => some (upload f)
    | none => none
  if req.title = "" ∨ req.content = "" ∨ req.genre = "" then
    (.err 400 "Title, content, and genre are required", db, uploads)
  else if req.content.length < 100 then
    (.err 400 "Content must be at least 100 characters long", db, uploads)
  else if req.title.length > 100 then
    (.err 400 "Title cannot be more than 100 characters", db, uploads)
  else if ¬ validGenres.contains req.genre then
    (.err 400 (req.genre ++ " is not a supported genre. Valid genres are: fantasy, romance, mystery, science-fiction, horror"), db, uploads)
  else if jsTrim req.title = "" then
    (.err 400 "Story validation failed: title: Title is required", db, uploads)
  else
    let story : Story :=
      { title := jsTrim req.title
        content := req.content
        genre := req.genre
        author := uid
        isAIGenerated := req.isAIGenerated
        likes := []
        wordCount := jsWordCount req.content
        status := "published"
        image := imageUrl
        createdAt := now }
    let db' : DB :=
      { stories := db.stories ++ [(freshId, story)]
        users := db.users.map (fun p =>
          if p.1 == uid then (p.1, ⟨p.2.stories ++ [freshId]⟩) else p) }
    (.ok story, db', uploads)

/-- Request body of `PUT /api/stories/:id`: `{ ...req.body }` is spread into
`findByIdAndUpdate`, so every schema field the body carries is `$set`.
`none` means the field is absent from the body. -/
structure UpdateBody where
  title : Option String
  content : Option String
  genre : Option String
  author : Option Nat
  wordCount : Option Nat
  isAIGenerated : Option Bool
  image : Option String
  status : Option String
deriving DecidableEq, Repr

/-- A body with every field absent. -/
def UpdateBody.empty : UpdateBody :=
  ⟨none, none, none, none, none, none, none, none⟩

/-- The mongoose update validation that `runValidators: true` performs on
the paths present in the update (schema constraints of models/Story.js):
title trimmed/required/maxlength, content minlength, genre enum (the full
20-value model enumeration), wordCount min 1, status enum. -/
def updateValidationError (b : UpdateBody) : Option String :=
  (match b.title with
   | some t =>
     if jsTrim t = "" then some "Title is required"
     else if (jsTrim t).length > 100 then some "Title cannot be more than 100 characters"
     else none
   | none => none) <|>
  (match b.content with
   | some c =>
     if c.length < 100 then some "Story must be at least 100 characters long"
     else none
   | none => none) <|>
  (match b.genre with
   | some g =>
     if modelGenres.contains g then none
     else some (g ++ " is not a supported genre")
   | none => none) <|>
  (match b.wordCount with
   | some w => if w < 1 then some "Story must contain at least one word" else none
   | none => none) <|>
  (match b.status with
   | some st =>
     if st = "draft" ∨ st = "published" then none
     else some (st ++ " is not a valid enum value for path status")
   | none => none)

/-- `$set` of the fields present in the body onto the stored document
(the semantics of `findByIdAndUpdate(id, { ...req.body })`).  The title
setter trims, per the schema. -/
def applyBody (b : UpdateBody) (s : Story) : Story :=
  { s with
    title := match b.title with
      | some t => jsTrim t
      | none => s.title
    content := b.content.getD s.content
    genre := b.genre.getD s.genre
    author := b.author.getD s.author
    wordCount := b.wordCount.getD s.wordCount
    isAIGenerated := b.isAIGenerated.getD s.isAIGenerated
    image := match b.image with
      | some i => some i
      | none => s.image
    status := b.status.getD s.status }

/-- The step `if (req.body.content) req.body.wordCount = recomputed`:
when the body carries a truthy (nonempty) `content`, its `wordCount` field
is overwritten with the recomputed count. -/
def recomputeWC (body : UpdateBody) : UpdateBody :=
  match body.content with
  | some c => if ¬ c = "" then { body with wordCount := some (jsWordCount c) } else body
  | none => body

/-- `updateStory` (storyController.js): find, 404 if absent, 401 if the
requester is not the author, recompute `wordCount` when the body carries a
truthy `content`, then `findByIdAndUpdate` with the spread body under
`runValidators`. -/
def updateStory (uid : Nat) (sid : Nat) (body : UpdateBody) (db : DB) :
    HResp Story × DB :=
  match findStory db sid with
  | none => (.err 404 "Story not found", db)
  | some story =>
    if ¬ story.author = uid then
      (.err 401 "Not authorized to update this story", db)
    else
      match updateValidationError (recomputeWC body) with
      | some msg => (.err 400 msg, db)
      | none =>
        (.ok (applyBody (recomputeWC body) story),
         { db with stories := db.stories.map (fun p =>
             if p.1 == sid then (p.1, applyBody (recomputeWC body) story) else p) })

/-- `deleteStory` (storyController.js): find, 404 if absent, 401 if the
requester is not the author, else `$pull` the id from the user's `stories`
array and delete the story document. -/
def deleteStory (uid : Nat) (sid : Nat) (db : DB) : HResp Unit × DB :=
  match findStory db sid with
  | none => (.err 404 "Story not found", db)
  | some story =>
    if ¬ story.author = uid then
      (.err 401 "Not authorized to delete this story", db)
    else
      (.ok (),
       { stories := db.stories.filter (fun p => p.1 != sid)
         users := db.users.map (fun p =>
           if p.1 == uid then (p.1, ⟨p.2.stories.filter (fun t => t != sid)⟩) else p) })

/-- The new likes list computed by `toggleLikeStory`: filter the requester
out when present, append otherwise. -/
def toggledLikes (likes : List Nat) (uid : Nat) : List Nat :=
  if likes.contains uid then likes.filter (fun l => l != uid)
  else likes ++ [uid]

/-- `toggleLikeStory` (storyController.js).  Returns
`(likes.length, !isLiked)` and saves the story (the pre-save hook does not
fire on `wordCount` since `content` is unmodified). -/
def toggleLikeStory (uid : Nat) (sid : Nat) (db : DB) :
    HResp (Nat × Bool) × DB :=
  match findStory db sid with
  | none => (.err 404 "Story not found", db)
  | some story =>
    let isLiked := story.likes.contains uid
    let newLikes := toggledLikes story.likes uid
    let s' := { story with likes := newLikes }
    (.ok (newLikes.length, !isLiked),
     { db with stories := db.stories.map (fun p => if p.1 == sid then (p.1, s') else p) })

/-- The sort key of `Story.find(query).sort({ createdAt: -1 })`: newer
(larger `createdAt`) first. -/
def byCreatedDesc (a b : Nat × Story) : Prop :=
  b.2.createdAt ≤ a.2.createdAt

instance : DecidableRel byCreatedDesc := fun _ _ => Nat.decLe _ _

instance : IsTotal (Nat × Story) byCreatedDesc :=
  ⟨fun a b => Nat.le_total b.2.createdAt a.2.createdAt⟩

instance : IsTrans (Nat × Story) byCreatedDesc :=
  ⟨fun _ _ _ h1 h2 => le_trans h2 h1⟩

/-- The Mongo sort on `createdAt` descending, modelled as insertion sort. -/
def sortDesc (l : List (Nat × Story)) : List (Nat × Story) :=
  l.insertionSort byCreatedDesc

/-- The payload of `GET /api/stories`: the page of stories plus
`page`, `pages = Math.ceil(total / limit)` and `total`. -/
structure PageResult where
  stories : List (Nat × Story)
  page : Nat
  pages : Nat
  total : Nat
deriving DecidableEq, Repr

/-- `getStories` (storyController.js).  The Mongo query built from the
`genre`/`search`/`author` parameters is abstracted as the match predicate
`q`; `page` and `limit` are the values after the `parseInt(...) || default`
step.  `skip((page-1)*limit).limit(limit)` and
`pages = Math.ceil(total/limit)` (for `limit ≥ 1`,
`⌈t/l⌉ = (t + l - 1) / l` over `Nat`). -/
def getStories (q : Story → Bool) (page limit : Nat) (db : DB) : PageResult :=
  let matched := db.stories.filter (fun p => q p.2)
  let total := matched.length
  { stories := ((sortDesc matched).drop ((page - 1) * limit)).take limit
    page := page
    pages := (total + limit - 1) / limit
    total := total }

/-! ### User registration (userController.js) -/

/-- Models JS `toLowerCase()` as per-character lowering. -/
def jsToLower (s : String) : String := ⟨s.data.map Char.toLower⟩

/-- `validateUsername`: required, trimmed length in [3, 20], characters in
`[a-zA-Z0-9_-]`. -/
def validateUsername (username : String) : Option String :=
  if username = "" then some "Username is required"
  else
    let u := jsTrim username
    if u.length < 3 then some "Username must be at least 3 characters long"
    else if u.length > 20 then some "Username must be less than 20 characters"
    else if ¬ u.data.all (fun c => c.isAlphanum ∨ c = '_' ∨ c = '-') then
      some "Username can only contain letters, numbers, underscores, and hyphens"
    else none

/-- Match of the anchored JS regex `/^\S+@\S+\.\S+$/`: the string contains
no whitespace and decomposes as `A ++ "@" ++ B ++ "." ++ C` with `A`, `B`,
`C` nonempty (any positions for the chosen `@` and `.` will do). -/
def emailRegexMatch (s : String) : Bool :=
  let l := s.data
  l.all (fun c => ¬ c.isWhitespace) &&
  (List.range l.length).any (fun i =>
    (List.range l.length).any (fun j =>
      1 ≤ i && i + 2 ≤ j && j + 2 ≤ l.length &&
      l.getD i ' ' == '@' && l.getD j ' ' == '.'))

/-- `validateEmail`: required, then the regex test on the trimmed,
lowercased value. -/
def validateEmail (email : String) : Option String :=
  if email = "" then some "Email is required"
  else if ¬ emailRegexMatch (jsToLower (jsTrim email)) then
    some "Please enter a valid email address"
  else none

/-- `validatePassword`: required, length in [6, 128]. -/
def validatePassword (password : String) : Option String :=
  if password = "" then some "Password is required"
  else if password.length < 6 then some "Password must be at least 6 characters long"
  else if password.length > 128 then some "Password must be less than 128 characters"
  else none

/-- The slice of a stored User document that `registerUser` consults
(emails are stored lowercased, usernames trimmed, both at creation). -/
structure RegUser where
  username : String
  email : String
deriving DecidableEq, Repr

/-- The users collection in insertion order. -/
structure UserDB where
  users : List RegUser
deriving DecidableEq, Repr

/-- `User.findOne({ $or: [{email}, {username}] })`: the first stored user
matching either condition. -/
def findDuplicate (db : UserDB) (email username : String) : Option RegUser :=
  db.users.find? (fun u => u.email == email || u.username == username)

/-- `registerUser` (userController.js): format validations, the duplicate
check with its two messages, then creation with trimmed username and
lowercased email. -/
def registerUser (username email password : String) (db : UserDB) :
    HResp RegUser × UserDB :=
  match validateUsername username with
  | some msg => (.err 400 msg, db)
  | none =>
  match validateEmail email with
  | some msg => (.err 400 msg, db)
  | none =>
  match validatePassword password with
  | some msg => (.err 400 msg, db)
  | none =>
  match findDuplicate db (jsToLower email) (jsTrim username) with
  | some u =>
    if u.email = jsToLower email then (.err 400 "Email is already registered", db)
    else (.err 400 "Username is already taken", db)
  | none =>
    let newUser : RegUser := ⟨jsTrim username, jsToLower email⟩
    (.ok newUser, ⟨db.users ++ [newUser]⟩)

/-! ### AI generation proxy (storyController part of unnamed sources) -/

/-- One element of the upstream `choices` array. -/
structure ApiChoice where
  messageContent : String
deriving DecidableEq, Repr

/-- An upstream DeepSeek response body: `choices` may be absent (`none`) or
present as a list. -/
structure ApiResponse where
  choices : Option (List ApiChoice)
deriving DecidableEq, Repr

/-- The guard `!data.choices || !data.choices[0]`: the first choice when
`choices` is present and nonempty. -/
def firstChoice (r : ApiResponse) : Option ApiChoice :=
  match r.choices with
  | none => none
  | some [] => none
  | some (c :: _) => some c

/-- The successful payload of `generateAIStory`. -/
structure GenPayload where
  title : String
  content : String
  genre : String
  isAIGenerated : Bool
deriving DecidableEq, Repr

/-- `generateAIStory` (storyController.js): 400 on a falsy prompt, 500 when
the API key is unset, then three sequential upstream calls whose stubbed
responses are the oracle arguments; each missing-completion check throws,
caught as the single 500 message, so no partial data is ever returned.
The handler touches no database. -/
def generateAIStory (prompt : String) (apiKey : Option String)
    (storyResp titleResp genreResp : ApiResponse) : HResp GenPayload :=
  if prompt = "" then .err 400 "Please provide a prompt for the story"
  else
    match apiKey with
    | none => .err 500 "DeepSeek API key not configured"
    | some _ =>
      match firstChoice storyResp with
      | none => .err 500 "An error occurred during story generation"
      | some c1 =>
        let generatedStory := jsTrim c1.messageContent
        match firstChoice titleResp with
        | none => .err 500 "An error occurred during story generation"
        | some c2 =>
          let generatedTitle := jsTrim c2.messageContent
          match firstChoice genreResp with
          | none => .err 500 "An error occurred during story generation"
          | some c3 =>
            .ok ⟨generatedTitle, generatedStory,
                 jsToLower (jsTrim c3.messageContent), true⟩

/-! ### Shared fixtures and helper lemmas -/

/-- A 100-character content string. -/
def exContent : String := String.mk (List.replicate 100 'a')

/-- A stored story authored by user 1 whose word count satisfies the
schema's derived-field invariant. -/
def exStory : Story :=
  { title := "T", content := exContent, genre := "fantasy", author := 1,
    isAIGenerated := false, likes := [], wordCount := 1,
    status := "published", image := none, createdAt := 5 }

/-- A database with one story (id 10, by user 1) and two users. -/
def exDB : DB :=
  { stories := [(10, exStory)], users := [(1, ⟨[10]⟩), (2, ⟨[]⟩)] }

lemma find?_key_map_set (l : List (Nat × Story)) (sid : Nat) (s' : Story) :
    (l.map (fun p => if p.1 == sid then (p.1, s') else p)).find?
        (fun p => p.1 == sid) =
      (l.find? (fun p => p.1 == sid)).map (fun p => (p.1, s')) := by
  induction l with
  | nil => rfl
  | cons a l ih =>
    by_cases h : a.1 = sid
    · have hb : (a.1 == sid) = true := by simpa using h
      have h1 : List.find? (fun p => p.1 == sid)
          ((a.1, s') :: l.map (fun p => if p.1 == sid then (p.1, s') else p)) =
            some (a.1, s') := List.find?_cons_of_pos _ hb
      have h2 : List.find? (fun p => p.1 == sid) (a :: l) = some a :=
        List.find?_cons_of_pos _ hb
      rw [List.map_cons, if_pos hb, h1, h2]
      rfl
    · have hb : ¬ (a.1 == sid) = true := by simpa using h
      have h1 : List.find? (fun p => p.1 == sid)
          (a :: l.map (fun p => if p.1 == sid then (p.1, s') else p)) =
            List.find? (fun p => p.1 == sid)
              (l.map (fun p => if p.1 == sid then (p.1, s') else p)) :=
        List.find?_cons_of_neg _ hb
      have h2 : List.find? (fun p => p.1 == sid) (a :: l) =
          List.find? (fun p => p.1 == sid) l :=
        List.find?_cons_of_neg _ hb
      rw [List.map_cons, if_neg hb, h1, h2, ih]

lemma findStory_set (db : DB) (sid : Nat) (s' : Story) :
    findStory { db with stories := db.stories.map (fun p =>
        if p.1 == sid then (p.1, s') else p) } sid =
      (findStory db sid).map (fun _ => s') := by
  unfold findStory
  rw [show ({ db with stories := db.stories.map (fun p =>
        if p.1 == sid then (p.1, s') else p) } : DB).stories =
      db.stories.map (fun p => if p.1 == sid then (p.1, s') else p) from rfl]
  rw [find?_key_map_set]
  cases db.stories.find? (fun p => p.1 == sid) <;> rfl

lemma recomputeWC_author (b : UpdateBody) :
    (recomputeWC b).author = b.author := by
  unfold recomputeWC
  cases b.content with
  | none => rfl
  | some c => by_cases h : c = "" <;> simp [h]

/-- Case analysis for `updateStory`: either the database is untouched, or
the requester is the author, the (recomputed) body validates, and exactly
the story at `sid` is replaced by the applied body. -/
lemma updateStory_cases (uid sid : Nat) (body : UpdateBody) (db : DB) :
    (updateStory uid sid body db).2 = db ∨
    ∃ s, findStory db sid = some s ∧ s.author = uid ∧
      updateValidationError (recomputeWC body) = none ∧
      (updateStory uid sid body db).2 =
        { db with stories := db.stories.map (fun p =>
            if p.1 == sid then (p.1, applyBody (recomputeWC body) s) else p) } := by
  unfold updateStory
  cases hs : findStory db sid with
  | none => left; rfl
  | some s =>
    by_cases hu : s.author = uid
    · cases hv : updateValidationError (recomputeWC body) with
      | some msg => left; simp [hu]
      | none =>
        right
        exact ⟨s, rfl, hu, rfl, by simp [hu]⟩
    · left; simp [hu]

/-! ### C1 -/

/-- C1 counterexample: the claim states that no update request body — even
one carrying an `author` field — changes a story's author.  But
`updateStory` spreads `req.body` into `findByIdAndUpdate`, so an update by
the author (user 1) whose body carries `author := 2` leaves the stored
story with author 2. -/
theorem C1_counterexample :
    (findStory exDB 10).map Story.author = some 1 ∧
    (findStory (updateStory 1 10
        { UpdateBody.empty with author := some 2 } exDB).2 10).map
      Story.author = some 2 := by
  decide

/-- C1 amended: after `updateStory`, the story's author equals the author
set at creation provided the update request body itself carries no
`author` field; a body that does carry one overwrites the stored author. -/
theorem C1_amended (db : DB) (uid sid : Nat) (body : UpdateBody)
    (hauthor : body.author = none) (s : Story)
    (hs : findStory db sid = some s) :
    ∃ s', findStory (updateStory uid sid body db).2 sid = some s' ∧
      s'.author = s.author := by
  rcases updateStory_cases uid sid body db with h | ⟨t, ht, _, _, h⟩
  · exact ⟨s, by rw [h]; exact hs, rfl⟩
  · have hts : t = s := by
      rw [hs] at ht
      exact (Option.some.inj ht).symm
    rw [h, findStory_set, hs]
    refine ⟨applyBody (recomputeWC body) t, rfl, ?_⟩
    rw [hts]
    show (recomputeWC body).author.getD s.author = s.author
    rw [recomputeWC_author, hauthor]
    rfl

/-- C1 witness: the amended theorem applied to the concrete fixture — an
author-free update of story 10 by user 1 keeps author 1. -/
theorem C1_amended_witness :
    ∃ s', findStory (updateStory 1 10 UpdateBody.empty exDB).2 10 = some s' ∧
      s'.author = exStory.author :=
  C1_amended exDB 1 10 UpdateBody.empty rfl exStory (by decide)

/-! ### C2 -/

lemma findStory_mem {db : DB} {sid : Nat} {s : Story}
    (h : findStory db sid = some s) : ∃ k, (k, s) ∈ db.stories := by
  unfold findStory at h
  cases hq : db.stories.find? (fun p => p.1 == sid) with
  | none => rw [hq] at h; cases h
  | some q =>
    rw [hq] at h
    refine ⟨q.1, ?_⟩
    have hm : q ∈ db.stories := List.mem_of_find?_eq_some hq
    have hs : q.2 = s := Option.some.inj h
    rw [← hs]
    exact hm

lemma createStory_stories (upload : String → String) (uid : Nat)
    (req : CreateReq) (fid now : Nat) (db : DB) :
    (createStory upload uid req fid now db).2.1.stories = db.stories ∨
    ∃ st : Story,
      (createStory upload uid req fid now db).2.1.stories =
        db.stories ++ [(fid, st)] ∧
      st.wordCount = jsWordCount st.content := by
  unfold createStory
  split_ifs <;> first
    | (left; rfl)
    | (right; exact ⟨_, rfl, rfl⟩)

lemma updateValidationError_content {b : UpdateBody}
    (h : updateValidationError b = none) {c : String}
    (hc : b.content = some c) : ¬ c.length < 100 := by
  unfold updateValidationError at h
  rw [Option.orElse_eq_none] at h
  rcases h with ⟨-, h⟩
  rw [Option.orElse_eq_none] at h
  rcases h with ⟨h, -⟩
  rw [hc] at h
  intro hlen
  have h' : (if c.length < 100 then
      some "Story must be at least 100 characters long" else none) = none := h
  rw [if_pos hlen] at h'
  cases h'

set_option maxRecDepth 8000 in
/-- C2 counterexample: the claim states the stored `wordCount` always
equals the recomputed count of the persisted content after `updateStory`,
whatever extra fields the body carries.  But a body carrying a `wordCount`
field and no `content` is spread into `findByIdAndUpdate` unchanged: the
stored count becomes 999 while the persisted content's recomputed count
is 1. -/
theorem C2_counterexample :
    findStory (updateStory 1 10
        { UpdateBody.empty with wordCount := some 999 } exDB).2 10 =
      some { exStory with wordCount := 999 } ∧
    ¬ (999 = jsWordCount exContent) := by
  decide

/-- C2 amended: the invariant `wordCount = content.trim().split(/\s+/).length`
is established by `createStory` for every persisted story, and preserved by
`updateStory` for every request body except one that itself carries a
`wordCount` field without also carrying a nonempty `content` field (such a
body overwrites the stored count directly). -/
theorem C2_amended :
    (∀ (upload : String → String) (uid : Nat) (req : CreateReq)
        (fid now : Nat) (db : DB),
      (∀ p ∈ db.stories, p.2.wordCount = jsWordCount p.2.content) →
      ∀ p ∈ (createStory upload uid req fid now db).2.1.stories,
        p.2.wordCount = jsWordCount p.2.content) ∧
    (∀ (uid sid : Nat) (body : UpdateBody) (db : DB),
      (body.wordCount = none ∨ ∃ c, body.content = some c ∧ ¬ c = "") →
      (∀ p ∈ db.stories, p.2.wordCount = jsWordCount p.2.content) →
      ∀ p ∈ (updateStory uid sid body db).2.stories,
        p.2.wordCount = jsWordCount p.2.content) := by
  constructor
  · intro upload uid req fid now db hinv p hp
    rcases createStory_stories upload uid req fid now db with h | ⟨st, h, hst⟩
    · rw [h] at hp
      exact hinv p hp
    · rw [h] at hp
      rcases List.mem_append.mp hp with h1 | h1
      · exact hinv p h1
      · have hpe : p = (fid, st) := by simpa using h1
        rw [hpe]
        exact hst
  · intro uid sid body db hbody hinv p hp
    rcases updateStory_cases uid sid body db with h | ⟨s, hs, -, hv, h⟩
    · rw [h] at hp
      exact hinv p hp
    · rw [h] at hp
      rcases List.mem_map.mp hp with ⟨q, hq, hfq⟩
      by_cases hqs : (q.1 == sid) = true
      · rw [if_pos hqs] at hfq
        rw [← hfq]
        have hsinv : s.wordCount = jsWordCount s.content := by
          rcases findStory_mem hs with ⟨k, hk⟩
          exact hinv (k, s) hk
        rcases hbody with hwn | ⟨c, hc, hcne⟩
        · cases hcc : body.content with
          | none =>
            show ((recomputeWC body).wordCount.getD s.wordCount) =
              jsWordCount ((recomputeWC body).content.getD s.content)
            simp only [recomputeWC, hcc, hwn, Option.getD_none]
            exact hsinv
          | some c =>
            by_cases hce : c = ""
            · exfalso
              have : (recomputeWC body).content = some c := by
                simp [recomputeWC, hcc, hce]
              exact updateValidationError_content hv this
                (by rw [hce]; decide)
            · show ((recomputeWC body).wordCount.getD s.wordCount) =
                jsWordCount ((recomputeWC body).content.getD s.content)
              simp [recomputeWC, hcc, hce]
        · show ((recomputeWC body).wordCount.getD s.wordCount) =
            jsWordCount ((recomputeWC body).content.getD s.content)
          simp [recomputeWC, hc, hcne]
      · rw [if_neg hqs] at hfq
        rw [← hfq]
        exact hinv q hq

set_option maxRecDepth 8000 in
/-- C2 witness: the amended theorem's update part applied to the concrete
fixture — an empty-body update of story 10 keeps the invariant on the
stored story. -/
theorem C2_amended_witness :
    exStory.wordCount = jsWordCount exStory.content :=
  C2_amended.2 1 10 UpdateBody.empty exDB (Or.inl rfl) (by decide)
    (10, exStory) (by decide)

/-! ### C3 -/

lemma filter_ne_of_not_mem {l : List Nat} {u : Nat} (h : u ∉ l) :
    l.filter (fun x => x != u) = l := by
  refine List.filter_eq_self.mpr (fun a ha => ?_)
  simp only [bne_iff_ne, ne_eq, decide_eq_true_eq]
  intro he
  exact h (he ▸ ha)

lemma length_filter_ne_add_count (l : List Nat) (u : Nat) :
    (l.filter (fun x => x != u)).length + l.count u = l.length := by
  induction l with
  | nil => rfl
  | cons a l ih =>
    by_cases h : a = u
    · subst h
      simp [List.filter_cons, List.count_cons]
      omega
    · have hb : (a != u) = true := by simpa using h
      have hc : (a == u) = false := by simpa using h
      simp only [List.filter_cons, hb, if_true, List.count_cons, hc,
        List.length_cons, List.length_cons, Bool.false_eq_true, if_false]
      omega

lemma toggledLikes_of_mem {l : List Nat} {u : Nat} (h : u ∈ l) :
    toggledLikes l u = l.filter (fun x => x != u) := by
  unfold toggledLikes
  rw [if_pos (by simpa using h)]

lemma toggledLikes_of_not_mem {l : List Nat} {u : Nat} (h : u ∉ l) :
    toggledLikes l u = l ++ [u] := by
  unfold toggledLikes
  rw [if_neg (by simpa using h)]

lemma mem_toggledLikes_self (l : List Nat) (u : Nat) :
    u ∈ toggledLikes l u ↔ u ∉ l := by
  by_cases h : u ∈ l
  · rw [toggledLikes_of_mem h]
    simp [List.mem_filter, h]
  · rw [toggledLikes_of_not_mem h]
    simp [h]

lemma toggledLikes_twice_of_not_mem {l : List Nat} {u : Nat} (h : u ∉ l) :
    toggledLikes (toggledLikes l u) u = l := by
  rw [toggledLikes_of_not_mem h,
    toggledLikes_of_mem (by simp : u ∈ l ++ [u]),
    List.filter_append, filter_ne_of_not_mem h]
  simp

lemma toggledLikes_twice_mem (l : List Nat) (u : Nat) :
    ∀ v, v ∈ toggledLikes (toggledLikes l u) u ↔ v ∈ l := by
  intro v
  by_cases hm : u ∈ l
  · rw [toggledLikes_of_mem hm]
    have hnm : u ∉ l.filter (fun x => x != u) := by
      simp [List.mem_filter]
    rw [toggledLikes_of_not_mem hnm]
    simp only [List.mem_append, List.mem_filter, bne_iff_ne, ne_eq,
      decide_eq_true_eq, List.mem_singleton]
    constructor
    · rintro (⟨hv, -⟩ | hv)
      · exact hv
      · exact hv ▸ hm
    · intro hv
      by_cases hvu : v = u
      · exact Or.inr hvu
      · exact Or.inl ⟨hv, hvu⟩
  · rw [toggledLikes_twice_of_not_mem hm]

lemma toggledLikes_twice_length (l : List Nat) (u : Nat) (h : l.count u ≤ 1) :
    (toggledLikes (toggledLikes l u) u).length = l.length := by
  by_cases hm : u ∈ l
  · have hc1 : l.count u = 1 :=
      le_antisymm h (List.one_le_count_iff.mpr hm)
    rw [toggledLikes_of_mem hm]
    have hnm : u ∉ l.filter (fun x => x != u) := by
      simp [List.mem_filter]
    rw [toggledLikes_of_not_mem hnm]
    have := length_filter_ne_add_count l u
    rw [hc1] at this
    simp only [List.length_append, List.length_singleton]
    omega
  · rw [toggledLikes_twice_of_not_mem hm]

lemma toggleLikeStory_eq (uid : Nat) {sid : Nat} {db : DB} {story : Story}
    (hfind : findStory db sid = some story) :
    toggleLikeStory uid sid db =
      (.ok ((toggledLikes story.likes uid).length,
            !(story.likes.contains uid)),
       { db with stories := db.stories.map (fun p =>
           if p.1 == sid then
             (p.1, { story with likes := toggledLikes story.likes uid })
           else p) }) := by
  unfold toggleLikeStory
  rw [hfind]

/-- C3: `toggleLikeStory` flips the requester's membership in `likes`
(removing the id when present, appending it otherwise), returns the new
like count and a like state matching the requester's resulting membership,
and — given the documented no-duplicate invariant on `likes` — calling it
twice with the same user restores the story's original like membership and
count. -/
theorem C3 (uid sid : Nat) (db : DB) (story : Story)
    (hfind : findStory db sid = some story)
    (hnodup : story.likes.count uid ≤ 1) :
    ((toggleLikeStory uid sid db).1 =
      .ok ((toggledLikes story.likes uid).length,
           !(story.likes.contains uid))) ∧
    (uid ∈ story.likes →
      toggledLikes story.likes uid =
        story.likes.filter (fun x => x != uid)) ∧
    (uid ∉ story.likes →
      toggledLikes story.likes uid = story.likes ++ [uid]) ∧
    ((!(story.likes.contains uid)) = true ↔
      uid ∈ toggledLikes story.likes uid) ∧
    (findStory (toggleLikeStory uid sid db).2 sid =
      some { story with likes := toggledLikes story.likes uid }) ∧
    (∃ story2,
      findStory
          (toggleLikeStory uid sid (toggleLikeStory uid sid db).2).2 sid =
        some story2 ∧
      (∀ v, v ∈ story2.likes ↔ v ∈ story.likes) ∧
      story2.likes.length = story.likes.length) := by
  have h1 := toggleLikeStory_eq uid hfind
  have hfind1 : findStory (toggleLikeStory uid sid db).2 sid =
      some { story with likes := toggledLikes story.likes uid } := by
    rw [h1, findStory_set, hfind]
    rfl
  have h2 := toggleLikeStory_eq uid hfind1
  refine ⟨by rw [h1], fun h => toggledLikes_of_mem h,
    fun h => toggledLikes_of_not_mem h, ?_, hfind1, ?_⟩
  · rw [mem_toggledLikes_self]
    simp
  · refine ⟨{ story with likes := toggledLikes (toggledLikes story.likes uid) uid }, ?_, ?_, ?_⟩
    · rw [h2, findStory_set, hfind1]
      rfl
    · exact toggledLikes_twice_mem story.likes uid
    · exact toggledLikes_twice_length story.likes uid hnodup

set_option maxRecDepth 8000 in
/-- C3 witness: the theorem applied to the concrete fixture — toggling a
like by user 1 on story 10 (whose likes list is empty) returns the new
count and like state. -/
theorem C3_witness :
    (toggleLikeStory 1 10 exDB).1 =
      .ok ((toggledLikes exStory.likes 1).length,
           !(exStory.likes.contains 1)) :=
  (C3 1 10 exDB exStory (by decide) (by decide)).1

/-! ### C4 -/

/-- C4: for an existing story and an authenticated requester whose id
differs from the story's author, `updateStory` and `deleteStory` both fail
with the 401 authorization error and leave the whole database — the story
document and every user's stories array included — unchanged. -/
theorem C4 (db : DB) (uid sid : Nat) (story : Story) (body : UpdateBody)
    (hfind : findStory db sid = some story)
    (hne : ¬ story.author = uid) :
    updateStory uid sid body db =
      (.err 401 "Not authorized to update this story", db) ∧
    deleteStory uid sid db =
      (.err 401 "Not authorized to delete this story", db) := by
  constructor
  · unfold updateStory
    rw [hfind]
    exact if_pos hne
  · unfold deleteStory
    rw [hfind]
    exact if_pos hne

set_option maxRecDepth 8000 in
/-- C4 witness: user 2 attempting to update or delete story 10, which is
authored by user 1, receives the 401 error and the database is unchanged. -/
theorem C4_witness :
    updateStory 2 10 UpdateBody.empty exDB =
      (.err 401 "Not authorized to update this story", exDB) ∧
    deleteStory 2 10 exDB =
      (.err 401 "Not authorized to delete this story", exDB) :=
  C4 exDB 2 10 exStory UpdateBody.empty (by decide) (by decide)

/-! ### C5 -/

set_option maxRecDepth 8000 in
/-- C5 counterexample: the claim states `createStory` accepts a genre
exactly when it belongs to the Story model's enumerated genre set.  But
the controller checks its own five-genre whitelist: "thriller" belongs to
the model enumeration yet an otherwise valid create request with it is
rejected with the validation error. -/
theorem C5_counterexample :
    modelGenres.contains "thriller" = true ∧
    (createStory (fun _ => "") 1
        { title := "T", content := exContent, genre := "thriller",
          isAIGenerated := false, file := none } 10 0 ⟨[], []⟩).1 =
      .err 400 "thriller is not a supported genre. Valid genres are: fantasy, romance, mystery, science-fiction, horror" := by
  decide

/-- C5 amended: for an otherwise valid create request, `createStory`
accepts the genre exactly when it belongs to the controller's hard-coded
five-genre whitelist (fantasy, romance, mystery, science-fiction, horror —
a strict subset of the model's enumeration), and rejects any other genre
with the validation error. -/
theorem C5_amended (upload : String → String) (uid : Nat) (req : CreateReq)
    (fid now : Nat) (db : DB)
    (ht : ¬ req.title = "") (hc : ¬ req.content = "") (hg : ¬ req.genre = "")
    (hlen : ¬ req.content.length < 100) (htl : ¬ req.title.length > 100)
    (htr : ¬ jsTrim req.title = "") :
    (validGenres.contains req.genre = true →
      ∃ st, (createStory upload uid req fid now db).1 = .ok st ∧
        st.genre = req.genre) ∧
    (validGenres.contains req.genre = false →
      (createStory upload uid req fid now db).1 =
        .err 400 (req.genre ++ " is not a supported genre. Valid genres are: fantasy, romance, mystery, science-fiction, horror")) := by
  constructor
  · intro hgen
    unfold createStory
    split_ifs <;> first
      | exact ⟨_, rfl, rfl⟩
      | simp_all
  · intro hgen
    unfold createStory
    split_ifs <;> first
      | rfl
      | simp_all

set_option maxRecDepth 8000 in
/-- C5 witness: the amended theorem at a concrete valid request — genre
"fantasy" is in the whitelist and the request is accepted. -/
theorem C5_amended_witness :
    ∃ st, (createStory (fun _ => "") 1
        { title := "T", content := exContent, genre := "fantasy",
          isAIGenerated := false, file := none } 10 0 ⟨[], []⟩).1 = .ok st ∧
      st.genre = "fantasy" :=
  (C5_amended (fun _ => "") 1
      { title := "T", content := exContent, genre := "fantasy",
        isAIGenerated := false, file := none } 10 0 ⟨[], []⟩
      (by decide) (by decide) (by decide) (by decide) (by decide)
      (by decide)).1 (by decide)

/-! ### C6 -/

/-- A 99-character content string. -/
def exContent99 : String := String.mk (List.replicate 99 'a')

/-- C6: with a valid title and whitelisted genre, a create request whose
content has exactly 99 characters is rejected with the validation error,
and one whose content has exactly 100 characters is accepted: the
acceptance boundary on content length is at 100. -/
theorem C6 (upload : String → String) (uid : Nat) (title genre : String)
    (b : Bool) (file : Option String) (fid now : Nat) (db : DB)
    (content99 content100 : String)
    (ht : ¬ title = "") (htl : ¬ title.length > 100) (htr : ¬ jsTrim title = "")
    (hg : validGenres.contains genre = true)
    (h99 : content99.length = 99) (h100 : content100.length = 100) :
    (createStory upload uid ⟨title, content99, genre, b, file⟩ fid now db).1 =
      .err 400 "Content must be at least 100 characters long" ∧
    ∃ st,
      (createStory upload uid ⟨title, content100, genre, b, file⟩ fid now db).1 =
        .ok st ∧ st.content = content100 := by
  have hgne : ¬ genre = "" := by
    intro he
    rw [he] at hg
    exact absurd hg (by decide)
  have hc99 : ¬ content99 = "" := by
    intro he
    rw [he] at h99
    exact absurd h99 (by decide)
  have hc100 : ¬ content100 = "" := by
    intro he
    rw [he] at h100
    exact absurd h100 (by decide)
  constructor
  · unfold createStory
    split_ifs <;> first
      | rfl
      | simp_all
  · unfold createStory
    split_ifs <;> first
      | exact ⟨_, rfl, rfl⟩
      | simp_all

set_option maxRecDepth 8000 in
/-- C6 witness: the theorem at concrete 99- and 100-character contents
(99 or 100 copies of a single character). -/
theorem C6_witness :
    (createStory (fun _ => "") 1
        ⟨"T", exContent99, "fantasy", false, none⟩ 10 0 ⟨[], []⟩).1 =
      .err 400 "Content must be at least 100 characters long" :=
  (C6 (fun _ => "") 1 "T" "fantasy" false none 10 0 ⟨[], []⟩
      exContent99 exContent (by decide) (by decide) (by decide) (by decide)
      (by decide) (by decide)).1

/-! ### C7 -/

/-- A users collection where the attempted username's holder ("bob") was
stored before the attempted email's holder ("alice"). -/
def db7 : UserDB := ⟨[⟨"bob", "bob@x.com"⟩, ⟨"alice", "alice@x.com"⟩]⟩

/-- A users collection holding only the attempted email's owner. -/
def db7b : UserDB := ⟨[⟨"alice", "alice@x.com"⟩]⟩

/-- C7 counterexample: the claim states a registration attempt with an
already-registered email always yields the message "Email is already
registered", whatever the username.  But `findOne({$or})` returns the
first matching stored user: with "bob" stored before "alice", registering
username "bob" with alice's email matches bob first, whose email differs,
so the handler answers "Username is already taken" even though the email
is registered. -/
theorem C7_counterexample :
    (∃ u ∈ db7.users, u.email = jsToLower "alice@x.com") ∧
    registerUser "bob" "alice@x.com" "secret1" db7 =
      (.err 400 "Username is already taken", db7) := by
  decide

/-- C7 amended: with format validations passing, an attempt on a
registered email always fails with a 400 duplicate error and an unchanged
collection, but the message is "Email is already registered" only when the
first stored user matching either the email or the username holds that
email — in particular whenever the attempted username is taken by no one;
if instead a different user holding the attempted username was stored
earlier, the message is "Username is already taken".  An attempt with a
taken username and an unregistered email always yields "Username is
already taken". -/
theorem C7_amended (username email password : String) (db : UserDB)
    (hu : validateUsername username = none)
    (he : validateEmail email = none)
    (hp : validatePassword password = none) :
    ((∃ u ∈ db.users, u.email = jsToLower email) →
      ∃ m, registerUser username email password db = (.err 400 m, db) ∧
        (m = "Email is already registered" ∨
         m = "Username is already taken")) ∧
    ((∃ u ∈ db.users, u.email = jsToLower email) →
      (∀ u ∈ db.users, ¬ u.username = jsTrim username) →
      registerUser username email password db =
        (.err 400 "Email is already registered", db)) ∧
    ((∃ u ∈ db.users, u.username = jsTrim username) →
      (∀ u ∈ db.users, ¬ u.email = jsToLower email) →
      registerUser username email password db =
        (.err 400 "Username is already taken", db)) := by
  have hfind : ∀ u0, db.users.find? (fun u =>
        u.email == jsToLower email || u.username == jsTrim username) =
          some u0 →
      u0 ∈ db.users ∧
        (u0.email = jsToLower email ∨ u0.username = jsTrim username) := by
    intro u0 h0
    refine ⟨List.mem_of_find?_eq_some h0, ?_⟩
    have := List.find?_some h0
    rcases Bool.or_eq_true_iff.mp this with h | h
    · exact Or.inl (beq_iff_eq.mp h)
    · exact Or.inr (beq_iff_eq.mp h)
  refine ⟨?_, ?_, ?_⟩
  · rintro ⟨u, hmem, hmail⟩
    have hsome : ∃ u0, findDuplicate db (jsToLower email) (jsTrim username) =
        some u0 := by
      rw [← Option.isSome_iff_exists]
      unfold findDuplicate
      rw [List.find?_isSome]
      exact ⟨u, hmem, by simp [hmail]⟩
    obtain ⟨u0, h0⟩ := hsome
    by_cases hcase : u0.email = jsToLower email
    · exact ⟨"Email is already registered",
        by simp [registerUser, hu, he, hp, h0, hcase], Or.inl rfl⟩
    · exact ⟨"Username is already taken",
        by simp [registerUser, hu, he, hp, h0, hcase], Or.inr rfl⟩
  · rintro ⟨u, hmem, hmail⟩ hnoname
    have hsome : ∃ u0, findDuplicate db (jsToLower email) (jsTrim username) =
        some u0 := by
      rw [← Option.isSome_iff_exists]
      unfold findDuplicate
      rw [List.find?_isSome]
      exact ⟨u, hmem, by simp [hmail]⟩
    obtain ⟨u0, h0⟩ := hsome
    obtain ⟨hm0, hd0⟩ := hfind u0 h0
    have hmail0 : u0.email = jsToLower email := by
      rcases hd0 with h | h
      · exact h
      · exact absurd h (hnoname u0 hm0)
    simp [registerUser, hu, he, hp, h0, hmail0]
  · rintro ⟨u, hmem, hname⟩ hnomail
    have hsome : ∃ u0, findDuplicate db (jsToLower email) (jsTrim username) =
        some u0 := by
      rw [← Option.isSome_iff_exists]
      unfold findDuplicate
      rw [List.find?_isSome]
      exact ⟨u, hmem, by simp [hname]⟩
    obtain ⟨u0, h0⟩ := hsome
    obtain ⟨hm0, -⟩ := hfind u0 h0
    have hmail0 : ¬ u0.email = jsToLower email := hnomail u0 hm0
    simp [registerUser, hu, he, hp, h0, hmail0]

/-- C7 witness: the amended theorem at a concrete state — with only
"alice" stored and the attempted username "bob" free, registering bob
under alice's email yields "Email is already registered". -/
theorem C7_amended_witness :
    registerUser "bob" "alice@x.com" "secret1" db7b =
      (.err 400 "Email is already registered", db7b) :=
  (C7_amended "bob" "alice@x.com" "secret1" db7b (by decide) (by decide)
    (by decide)).2.1 (by decide) (by decide)

/-! ### C8 -/

/-- A demo story whose creation time is its index. -/
def demoStory (i : Nat) : Story :=
  { title := "t", content := "c", genre := "fantasy", author := 0,
    isAIGenerated := false, likes := [], wordCount := 1,
    status := "published", image := none, createdAt := i }

/-- A database holding 15 stories. -/
def demoDB : DB := ⟨(List.range 15).map (fun i => (i, demoStory i)), []⟩

/-- C8: `getStories` pages through the stories matching the query sorted
newest-created-first, skipping `(page-1)*limit` and returning at most
`limit` items, every returned item being a stored match, with
`total` the match count and `pages = ⌈total/limit⌉`; in particular with
15 matching stories and limit 10, page 1 returns 10 items with
`pages = 2` and `total = 15`, and page 2 returns 5. -/
theorem C8 (q : Story → Bool) (page limit : Nat) (db : DB) :
    (getStories q page limit db).total =
      (db.stories.filter (fun p => q p.2)).length ∧
    (getStories q page limit db).pages =
      ((getStories q page limit db).total + limit - 1) / limit ∧
    (getStories q page limit db).stories =
      ((sortDesc (db.stories.filter (fun p => q p.2))).drop
        ((page - 1) * limit)).take limit ∧
    (getStories q page limit db).stories.length ≤ limit ∧
    List.Sorted byCreatedDesc (getStories q page limit db).stories ∧
    (∀ x ∈ (getStories q page limit db).stories,
      x ∈ db.stories ∧ q x.2 = true) ∧
    (getStories (fun _ => true) 1 10 demoDB).stories.length = 10 ∧
    (getStories (fun _ => true) 1 10 demoDB).pages = 2 ∧
    (getStories (fun _ => true) 1 10 demoDB).total = 15 ∧
    (getStories (fun _ => true) 2 10 demoDB).stories.length = 5 := by
  refine ⟨rfl, rfl, rfl, ?_, ?_, ?_, by decide, by decide, by decide,
    by decide⟩
  · show (((sortDesc (db.stories.filter (fun p => q p.2))).drop
        ((page - 1) * limit)).take limit).length ≤ limit
    rw [List.length_take]
    exact min_le_left _ _
  · have hs : List.Sorted byCreatedDesc
        (sortDesc (db.stories.filter (fun p => q p.2))) :=
      List.sorted_insertionSort byCreatedDesc _
    have hsub : ((((sortDesc (db.stories.filter (fun p => q p.2))).drop
          ((page - 1) * limit)).take limit)).Sublist
        (sortDesc (db.stories.filter (fun p => q p.2))) :=
      (List.take_sublist _ _).trans (List.drop_sublist _ _)
    exact List.Pairwise.sublist hsub hs
  · intro x hx
    have hx1 : x ∈ (sortDesc (db.stories.filter (fun p => q p.2))).drop
        ((page - 1) * limit) := List.take_subset _ _ hx
    have hx2 : x ∈ sortDesc (db.stories.filter (fun p => q p.2)) :=
      List.drop_subset _ _ hx1
    have hx3 : x ∈ db.stories.filter (fun p => q p.2) :=
      (List.perm_insertionSort byCreatedDesc _).mem_iff.mp hx2
    exact ⟨(List.mem_filter.mp hx3).1, (List.mem_filter.mp hx3).2⟩

/-! ### C9 -/

lemma jsToLower_ne_empty {s : String} (h : ¬ s = "") :
    ¬ jsToLower s = "" := by
  intro he
  apply h
  have hd : s.data.map Char.toLower = [] := congrArg String.data he
  have hnil : s.data = [] := List.map_eq_nil_iff.mp hd
  cases s
  simp_all

/-- C9: with a nonempty prompt and a configured API key, when each of the
three stubbed upstream responses carries a first choice whose completion
is nonempty after trimming, `generateAIStory` returns exactly
`{title, content, genre, isAIGenerated := true}` with nonempty title,
content and genre (the handler touches no store, so nothing is
persisted); and whenever the second (title) response lacks the expected
completion field, the whole operation fails with the 500 upstream error
and no partial data is returned. -/
theorem C9 :
    (∀ (prompt k : String) (sR tR gR : ApiResponse)
        (cs ct cg : ApiChoice),
      ¬ prompt = "" →
      firstChoice sR = some cs → ¬ jsTrim cs.messageContent = "" →
      firstChoice tR = some ct → ¬ jsTrim ct.messageContent = "" →
      firstChoice gR = some cg → ¬ jsTrim cg.messageContent = "" →
      generateAIStory prompt (some k) sR tR gR =
        .ok ⟨jsTrim ct.messageContent, jsTrim cs.messageContent,
             jsToLower (jsTrim cg.messageContent), true⟩ ∧
      ¬ jsTrim ct.messageContent = "" ∧
      ¬ jsTrim cs.messageContent = "" ∧
      ¬ jsToLower (jsTrim cg.messageContent) = "") ∧
    (∀ (prompt k : String) (sR tR gR : ApiResponse),
      ¬ prompt = "" →
      (firstChoice sR = none ∨ firstChoice tR = none ∨
        firstChoice gR = none) →
      generateAIStory prompt (some k) sR tR gR =
        .err 500 "An error occurred during story generation") := by
  constructor
  · intro prompt k sR tR gR cs ct cg hprompt hcs hcsne hct hctne hcg hcgne
    refine ⟨?_, hctne, hcsne, jsToLower_ne_empty hcgne⟩
    simp [generateAIStory, if_neg hprompt, hcs, hct, hcg]
  · intro prompt k sR tR gR hprompt hfail
    unfold generateAIStory
    rw [if_neg hprompt]
    cases hsR : firstChoice sR with
    | none => rfl
    | some cs =>
      cases htR : firstChoice tR with
      | none => rfl
      | some ct =>
        cases hgR : firstChoice gR with
        | none => rfl
        | some cg => simp_all

/-- C9 witness: the theorem at concrete stubs — three well-formed
completions produce the assembled payload, and a title response without
choices makes the whole call fail with the 500 error. -/
theorem C9_witness :
    generateAIStory "a prompt" (some "key")
        ⟨some [⟨"Story text"⟩]⟩ ⟨some []⟩ ⟨some [⟨"Fantasy"⟩]⟩ =
      .err 500 "An error occurred during story generation" :=
  C9.2 "a prompt" "key" ⟨some [⟨"Story text"⟩]⟩ ⟨some []⟩
    ⟨some [⟨"Fantasy"⟩]⟩ (by decide) (Or.inr (Or.inl rfl))

/-! ### C10 -/

/-- The controller-level validation failures of `createStory`
(storyController.js lines guarding required fields, content length,
title length and genre). -/
def createValidationFails (req : CreateReq) : Prop :=
  req.title = "" ∨ req.content = "" ∨ req.genre = "" ∨
  req.content.length < 100 ∨ req.title.length > 100 ∨
  validGenres.contains req.genre = false

/-- C10: for a create request carrying an image file, the image is
published to the asset host before any field validation runs; hence when
any of the title/content/genre validations fails, the response is the 400
validation error and no story is persisted (the database is unchanged),
but the upload has already happened. -/
theorem C10 (upload : String → String) (uid : Nat) (req : CreateReq)
    (f : String) (fid now : Nat) (db : DB)
    (hf : req.file = some f) (hv : createValidationFails req) :
    ∃ msg, createStory upload uid req fid now db =
      (.err 400 msg, db, [upload f]) := by
  unfold createStory
  rw [hf]
  split_ifs <;> first
    | exact ⟨_, rfl⟩
    | (exfalso; unfold createValidationFails at hv; simp_all)

/-- C10 witness: a create request with an image and an empty title is
rejected with a 400 error, the database is unchanged, yet the image was
uploaded. -/
theorem C10_witness :
    ∃ msg, createStory (fun s => s) 1
        ⟨"", exContent, "fantasy", false, some "img"⟩ 10 0 ⟨[], []⟩ =
      (.err 400 msg, ⟨[], []⟩, ["img"]) :=
  C10 (fun s => s) 1 ⟨"", exContent, "fantasy", false, some "img"⟩
    "img" 10 0 ⟨[], []⟩ rfl (Or.inl rfl)

end NovelHub
